import Mathlib

/-!
Shallow embedding of `src/termux.py` (async_termux_api).

The embedding models the notification registry, the action dispatcher, the
callback-request parser and the listener lifecycle of `termux.py`.

Modelling conventions:
- A Python `ActionCallback` (`Optional[Callable[[], Coroutine]]`) is modelled
  as `Option Nat`: a handler is identified by an opaque tag; `none` means no
  handler is bound.  Scheduling a handler with `asyncio.create_task` is
  modelled by returning the tag of the scheduled handler.
- The Python `set` of notifications (`NotificationManager.notification_set`)
  is modelled as a `List Notification`.  Since `Notification.__eq__` and
  `__hash__` are defined solely by `n_id`, `set.discard` removes the element
  whose id equals the argument's id and `set.add` is a no-op when an element
  with the same id is present (Python sets keep the existing element).
- External command invocations (`_run`) are modelled by returning the command
  (argument list / joined string) that would be executed.
- Exceptions are modelled with `Except String`; a total function models code
  that cannot raise.
-/

namespace AsyncTermux

/-- Action token constants, `termux.py` lines 4-12. -/
def ACTION_CLICK : String := "click"

def ACTION_DELETE : String := "delete"

def ACTION_BUTTON1 : String := "button1"

def ACTION_BUTTON2 : String := "button2"

def ACTION_BUTTON3 : String := "button3"

def ACTION_MEDIA_PLAY : String := "media_play"

def ACTION_MEDIA_PAUSE : String := "media_pause"

def ACTION_MEDIA_NEXT : String := "media_next"

def ACTION_MEDIA_PREVIOUS : String := "media_previous"

/-- Resolved path of the `termux-notification` binary (`_find_in_path` result,
line 262); the claims do not depend on its value, only on its position in the
command. -/
def TERMUX_NOTIFICATION : String := "termux-notification"

/-- Resolved path of the `termux-notification-remove` binary (line 263). -/
def TERMUX_NOTIFICATION_REMOVE : String := "termux-notification-remove"

/-- Resolved path of the `curl` binary (line 266). -/
def CURL : String := "curl"

/-- The `Notification` class of `termux.py` lines 62-148: display attributes
(lines 78-89), button labels (lines 90-92) and action bindings (lines 93-101).
Handlers are modelled as `Option Nat` tags. -/
structure Notification where
  n_id : Int
  content : String
  title : String
  group : String
  priority : String
  n_type : String
  alert_once : Bool
  ongoing : Bool
  sound : Bool
  image_path : String
  icon : String
  vibrate : String
  button1 : String
  button2 : String
  button3 : String
  action_button1 : Option Nat
  action_button2 : Option Nat
  action_button3 : Option Nat
  action_click : Option Nat
  action_delete : Option Nat
  action_media_play : Option Nat
  action_media_pause : Option Nat
  action_media_next : Option Nat
  action_media_previous : Option Nat
deriving DecidableEq

/-- `Notification.__init__` (lines 63-101): every display attribute is taken
from the constructor arguments, button labels start empty and every action
binding starts absent. -/
def Notification.make (n_id : Int) (content : String) (title : String)
    (group : String) (priority : String) (n_type : String) (alert_once : Bool)
    (ongoing : Bool) (sound : Bool) (image_path : String) (icon : String)
    (vibrate : String) : Notification :=
  { n_id, content, title, group, priority, n_type, alert_once, ongoing, sound,
    image_path, icon, vibrate,
    button1 := "", button2 := "", button3 := "",
    action_button1 := none, action_button2 := none, action_button3 := none,
    action_click := none, action_delete := none,
    action_media_play := none, action_media_pause := none,
    action_media_next := none, action_media_previous := none }

/-- `Notification.__init__` with the default values of all optional
arguments (title "" and keyword defaults, lines 63). -/
def Notification.simple (n_id : Int) (content : String) : Notification :=
  Notification.make n_id content "" "" "" "" false false false "" "" ""

/-- `Notification.set_click_action` (lines 103-104). -/
def Notification.set_click_action (n : Notification) (cb : Option Nat) : Notification :=
  { n with action_click := cb }

/-- `Notification.set_delete_action` (lines 106-107). -/
def Notification.set_delete_action (n : Notification) (cb : Option Nat) : Notification :=
  { n with action_delete := cb }

/-- `Notification.set_button1` (lines 121-126), translated exactly as written:
the guard `if button_text == "" or action_callback == None` assigns the empty
label and absent handler, but the method then falls through and assigns
`button_text` and `action_callback` unconditionally (there is no early
return in the source). -/
def Notification.set_button1 (n : Notification) (button_text : String)
    (action_callback : Option Nat) : Notification :=
  let n := if button_text == "" || action_callback.isNone then
    { n with button1 := "", action_button1 := none } else n
  { n with button1 := button_text, action_button1 := action_callback }

/-- `Notification.set_button2` (lines 128-133), same fall-through as
`set_button1`. -/
def Notification.set_button2 (n : Notification) (button_text : String)
    (action_callback : Option Nat) : Notification :=
  let n := if button_text == "" || action_callback.isNone then
    { n with button2 := "", action_button2 := none } else n
  { n with button2 := button_text, action_button2 := action_callback }

/-- `Notification.set_button3` (lines 135-140), same fall-through as
`set_button1`. -/
def Notification.set_button3 (n : Notification) (button_text : String)
    (action_callback : Option Nat) : Notification :=
  let n := if button_text == "" || action_callback.isNone then
    { n with button3 := "", action_button3 := none } else n
  { n with button3 := button_text, action_button3 := action_callback }

/-- `Notification.__eq__` (lines 142-145): equality is defined solely by the
id (the non-`Notification` branch returning `False` is outside the typed
model). -/
def notifEq (a b : Notification) : Bool :=
  a.n_id == b.n_id

/-- Python `set.discard` specialised to `Notification` under its `__eq__`:
the element with the argument's id is removed (there is at most one, since a
Python set never holds two equal elements). -/
def setDiscard (s : List Notification) (n : Notification) : List Notification :=
  s.filter (fun m => !(notifEq m n))

/-- Python `set.add` specialised to `Notification` under its `__eq__`: if an
element with the same id is present the set is unchanged (Python keeps the
existing element); otherwise the new element is inserted. -/
def setAdd (s : List Notification) (n : Notification) : List Notification :=
  if s.any (fun m => notifEq m n) then s else n :: s

/-- Characters Python's `shlex.quote` considers safe (the complement of its
`_find_unsafe` pattern under ASCII): alphanumerics, underscore, the characters
at-sign, percent, plus, equals, colon, comma, dot, slash and hyphen. -/
def shlex_safe_char (c : Char) : Bool :=
  c.isAlpha || c.isDigit || c == '_' || c == '@' || c == '%' || c == '+' ||
    c == '=' || c == ':' || c == ',' || c == '.' || c == '/' || c == '-'

/-- A single-quote character, written by code point to keep the source free of
stray quote characters. -/
def squote : String :=
  String.singleton (Char.ofNat 39)

/-- Python `shlex.quote`: the empty string becomes a pair of single quotes, a
string of safe characters is returned unchanged, and any other string is
wrapped in single quotes with embedded single quotes escaped. -/
def shlex_quote (s : String) : String :=
  if s == "" then squote ++ squote
  else if s.toList.all shlex_safe_char then s
  else squote ++ (s.replace squote (squote ++ "\"" ++ squote ++ "\"" ++ squote)) ++ squote

/-- Python `shlex.join`: quote each argument and join with single spaces. -/
def shlex_join (args : List String) : String :=
  String.intercalate " " (args.map shlex_quote)

/-- `NotificationManager._curl_cmd` (lines 216-217): the callback address for
one `action_id` (`"{n_id}:{action}"`), a curl invocation against the
manager's unix socket. -/
def _curl_cmd (socketpath : String) (action_id : String) : String :=
  shlex_join [CURL, "-GET", "--unix-socket", socketpath, "http://localhost/" ++ action_id]

/-- Line 233 of `_notification_cmd`: the click callback pair is emitted when a
click handler is bound or the notification is not ongoing. -/
def click_action_args (socketpath : String) (n : Notification) : List String :=
  if n.action_click.isSome || !n.ongoing then
    ["--action", _curl_cmd socketpath (toString n.n_id ++ ":" ++ ACTION_CLICK)]
  else []

/-- Line 234 of `_notification_cmd`: the delete callback pair is emitted when
a delete handler is bound or the notification is not ongoing. -/
def delete_action_args (socketpath : String) (n : Notification) : List String :=
  if n.action_delete.isSome || !n.ongoing then
    ["--on-delete", _curl_cmd socketpath (toString n.n_id ++ ":" ++ ACTION_DELETE)]
  else []

/-- Lines 235-239 of `_notification_cmd`: the media callback pairs are emitted
only when `n_type == "media"`, and then one pair per bound media handler. -/
def media_action_args (socketpath : String) (n : Notification) : List String :=
  if n.n_type == "media" then
    (if n.action_media_play.isSome then
      ["--media-play", _curl_cmd socketpath (toString n.n_id ++ ":" ++ ACTION_MEDIA_PLAY)]
    else [])
    ++ (if n.action_media_pause.isSome then
      ["--media-pause", _curl_cmd socketpath (toString n.n_id ++ ":" ++ ACTION_MEDIA_PAUSE)]
    else [])
    ++ (if n.action_media_next.isSome then
      ["--media-next", _curl_cmd socketpath (toString n.n_id ++ ":" ++ ACTION_MEDIA_NEXT)]
    else [])
    ++ (if n.action_media_previous.isSome then
      ["--media-previous", _curl_cmd socketpath (toString n.n_id ++ ":" ++ ACTION_MEDIA_PREVIOUS)]
    else [])
  else []

/-- Line 243 of `_notification_cmd`: the button1 callback pair is emitted
whenever a button1 handler is bound (independently of the label). -/
def button1_action_args (socketpath : String) (n : Notification) : List String :=
  if n.action_button1.isSome then
    ["--button1-action", _curl_cmd socketpath (toString n.n_id ++ ":" ++ ACTION_BUTTON1)]
  else []

/-- Line 244 of `_notification_cmd`: the button2 callback pair. -/
def button2_action_args (socketpath : String) (n : Notification) : List String :=
  if n.action_button2.isSome then
    ["--button2-action", _curl_cmd socketpath (toString n.n_id ++ ":" ++ ACTION_BUTTON2)]
  else []

/-- Line 245 of `_notification_cmd`: the button3 callback pair. -/
def button3_action_args (socketpath : String) (n : Notification) : List String :=
  if n.action_button3.isSome then
    ["--button3-action", _curl_cmd socketpath (toString n.n_id ++ ":" ++ ACTION_BUTTON3)]
  else []

/-- `NotificationManager._notification_cmd` (lines 219-247), as the argument
list built before the final `shlex.join`.  Each line of the source appends one
conditional flag/value chunk; Python string truthiness (`if n.title:`) is the
non-emptiness test.  Note that the `--title` chunk appears twice in the
source, at line 223 and again at line 246. -/
def _notification_args (socketpath : String) (n : Notification) : List String :=
  [TERMUX_NOTIFICATION]
  ++ ["--id", toString n.n_id]
  ++ ["--content", n.content]
  ++ (if n.title != "" then ["--title", n.title] else [])
  ++ (if n.group != "" then ["--group", n.group] else [])
  ++ (if n.priority != "" then ["--priority", n.priority] else [])
  ++ (if n.n_type != "" then ["--type", n.n_type] else [])
  ++ (if n.alert_once then ["--alert-once"] else [])
  ++ (if n.ongoing then ["--ongoing"] else [])
  ++ (if n.sound then ["--sound"] else [])
  ++ (if n.image_path != "" then ["--image-path", n.image_path] else [])
  ++ (if n.icon != "" then ["--icon", n.icon] else [])
  ++ (if n.vibrate != "" then ["--vibrate", n.vibrate] else [])
  ++ click_action_args socketpath n
  ++ delete_action_args socketpath n
  ++ media_action_args socketpath n
  ++ (if n.button1 != "" then ["--button1", n.button1] else [])
  ++ (if n.button2 != "" then ["--button2", n.button2] else [])
  ++ (if n.button3 != "" then ["--button3", n.button3] else [])
  ++ button1_action_args socketpath n
  ++ button2_action_args socketpath n
  ++ button3_action_args socketpath n
  ++ (if n.title != "" then ["--title", n.title] else [])

/-- `NotificationManager._notification_cmd` (line 247): the joined command
string handed to `_run`. -/
def _notification_cmd (socketpath : String) (n : Notification) : String :=
  shlex_join (_notification_args socketpath n)

/-- `NotificationManager.send_notification` (lines 160-165): discard any live
entry equal (by id) to the argument, add the argument, then issue the display
command.  Returns the new live set and the issued command. -/
def send_notification (socketpath : String) (s : List Notification)
    (n : Notification) : List Notification × String :=
  (setAdd (setDiscard s n) n, _notification_cmd socketpath n)

/-- The removal command issued for one id
(`[TERMUX_NOTIFICATION_REMOVE, str(n_id)]`, lines 169 and 172). -/
def remove_cmd_args (nid : Int) : List String :=
  [TERMUX_NOTIFICATION_REMOVE, toString nid]

/-- `NotificationManager.remove_notification` (lines 167-169): discard the
argument from the live set and issue its removal command. -/
def remove_notification (s : List Notification) (n : Notification) :
    List Notification × List String :=
  (setDiscard s n, remove_cmd_args n.n_id)

/-- `NotificationManager.remove_all_notifications` (lines 171-172): issue a
removal command for every live notification; the live set is not mutated. -/
def remove_all_notifications (s : List Notification) :
    List Notification × List (List String) :=
  (s, s.map (fun n => remove_cmd_args n.n_id))

/-- The handler `_on_action_callback` would schedule for a found record: the
`elif` chain of lines 194-202, where each guard is
`action == TOKEN and n.action_TOKEN`. -/
def _dispatch_target (n : Notification) (action : String) : Option Nat :=
  if action == ACTION_CLICK && n.action_click.isSome then n.action_click
  else if action == ACTION_DELETE && n.action_delete.isSome then n.action_delete
  else if action == ACTION_MEDIA_PLAY && n.action_media_play.isSome then n.action_media_play
  else if action == ACTION_MEDIA_PAUSE && n.action_media_pause.isSome then n.action_media_pause
  else if action == ACTION_MEDIA_NEXT && n.action_media_next.isSome then n.action_media_next
  else if action == ACTION_MEDIA_PREVIOUS && n.action_media_previous.isSome then n.action_media_previous
  else if action == ACTION_BUTTON1 && n.action_button1.isSome then n.action_button1
  else if action == ACTION_BUTTON2 && n.action_button2.isSome then n.action_button2
  else if action == ACTION_BUTTON3 && n.action_button3.isSome then n.action_button3
  else none

/-- The binding a record holds for a given action token: the field named by
the token, `none` for unknown tokens.  This is the record's action-binding
table of lines 93-101 read off by token. -/
def bound_handler (n : Notification) (action : String) : Option Nat :=
  if action == ACTION_CLICK then n.action_click
  else if action == ACTION_DELETE then n.action_delete
  else if action == ACTION_MEDIA_PLAY then n.action_media_play
  else if action == ACTION_MEDIA_PAUSE then n.action_media_pause
  else if action == ACTION_MEDIA_NEXT then n.action_media_next
  else if action == ACTION_MEDIA_PREVIOUS then n.action_media_previous
  else if action == ACTION_BUTTON1 then n.action_button1
  else if action == ACTION_BUTTON2 then n.action_button2
  else if action == ACTION_BUTTON3 then n.action_button3
  else none

/-- `NotificationManager._on_action_callback` (lines 189-204): find the live
record with the given id (the `for ... break / else: return` loop); if none,
do nothing; otherwise schedule the bound handler for the action (if any) and,
when the action is `click` or `delete`, discard the record from the live set.
The function is total: the source body cannot raise.  Returns the new live
set and the tag of the scheduled handler, if one was scheduled. -/
def _on_action_callback (s : List Notification) (nid : Int) (action : String) :
    List Notification × Option Nat :=
  match s.find? (fun n => n.n_id == nid) with
  | none => (s, none)
  | some n =>
    (if [ACTION_CLICK, ACTION_DELETE].contains action then setDiscard s n else s,
     _dispatch_target n action)

/-- Helper for `pySplit`: split the remaining characters at every occurrence
of the separator, accumulating the current fragment in reverse. -/
def splitCharAux (sep : Char) : List Char → List Char → List String
  | [], acc => [String.mk acc.reverse]
  | c :: cs, acc =>
    if c == sep then String.mk acc.reverse :: splitCharAux sep cs []
    else splitCharAux sep cs (c :: acc)

/-- Python `str.split` with an explicit one-character separator: splits at
every occurrence and keeps empty fragments (so the result of splitting a
string with k separator occurrences has exactly k+1 fragments). -/
def pySplit (sep : Char) (s : String) : List String :=
  splitCharAux sep s.toList []

/-- The ASCII whitespace characters Python `int()` strips before parsing:
space, tab, newline, carriage return, vertical tab, form feed and the
file/group/record/unit separators (code points 28-31).  Python additionally
strips non-ASCII Unicode whitespace, which lies outside the ASCII scope the
theorems condition on. -/
def py_space (c : Char) : Bool :=
  c == ' ' || c == '\t' || c == '\n' || c == '\r' || c.toNat == 11 ||
    c.toNat == 12 || c.toNat == 28 || c.toNat == 29 || c.toNat == 30 ||
    c.toNat == 31

/-- No two consecutive characters are both underscores. -/
def no_adjacent_underscores : List Char → Bool
  | c1 :: c2 :: rest => !(c1 == '_' && c2 == '_') && no_adjacent_underscores (c2 :: rest)
  | _ => true

/-- The digit part accepted by Python `int()` after the optional sign: a
nonempty string of decimal digits with PEP 515 underscore grouping — every
underscore must sit between two digits (so the string starts and ends with a
digit and has no adjacent underscores).  The value ignores the
underscores. -/
def parse_nat_digits (cs : List Char) : Option Nat :=
  match cs.head?, cs.getLast? with
  | some cFirst, some cLast =>
    if cFirst.isDigit && cLast.isDigit
        && cs.all (fun c => c.isDigit || c == '_')
        && no_adjacent_underscores cs then
      some ((cs.filter Char.isDigit).foldl (fun a c => a * 10 + (c.toNat - 48)) 0)
    else none
  | _, _ => none

/-- Python `int(str)`: strip surrounding whitespace, accept an optional sign
followed by a nonempty digit string with underscore grouping, otherwise
raise `ValueError` (modelled as `none`).  The model is exact on ASCII
strings; Python additionally accepts non-ASCII decimal digits and
whitespace, which the theorems keep outside scope via an ASCII side
condition. -/
def python_int (s : String) : Option Int :=
  let cs := s.toList.dropWhile py_space
  let cs := (cs.reverse.dropWhile py_space).reverse
  match cs with
  | '+' :: rest => (parse_nat_digits rest).map Int.ofNat
  | '-' :: rest => (parse_nat_digits rest).map (fun k => -(Int.ofNat k))
  | rest => (parse_nat_digits rest).map Int.ofNat

/-- An ASCII character (the scope on which `python_int` models Python
`int()` exactly). -/
def is_ascii_char (c : Char) : Bool :=
  c.toNat < 128

/-- The request lines on which the tuple unpacking of lines 179-181 itself
raises: the line does not split on spaces into exactly three parts, or the
path does not split on colons into exactly two.  This failure mode is pure
string splitting, independent of the `int()` model. -/
def request_line_unpack_fails (line : String) : Bool :=
  match pySplit ' ' line with
  | [_m, http_path, _v] =>
    match pySplit ':' http_path with
    | [_, _] => false
    | _ => true
  | _ => true

/-- Whether an action token is one of the nine recognized by the dispatcher's
`elif` chain (lines 194-202). -/
def recognized_action (act : String) : Bool :=
  act == ACTION_CLICK || act == ACTION_DELETE || act == ACTION_MEDIA_PLAY ||
    act == ACTION_MEDIA_PAUSE || act == ACTION_MEDIA_NEXT ||
    act == ACTION_MEDIA_PREVIOUS || act == ACTION_BUTTON1 ||
    act == ACTION_BUTTON2 || act == ACTION_BUTTON3

/-- Whether an `Except` value is an error. -/
def except_failed : Except String α → Bool
  | Except.error _ => true
  | Except.ok _ => false

/-- The request-line parsing of `_callback_server` (lines 179-182):
`method, http_path, http_version = line.split(" ")` (a `ValueError` unless
exactly three parts), `n_id, n_act = http_path.split(":")` (a `ValueError`
unless exactly two parts), then `n_id = int(n_id[1:])` (a `ValueError` when
not an integer).  A raised `ValueError` is modelled as `Except.error`. -/
def parse_request (line : String) : Except String (Int × String) :=
  match pySplit ' ' line with
  | [_method, http_path, _version] =>
    match pySplit ':' http_path with
    | [nid_str, n_act] =>
      match python_int (String.mk (nid_str.toList.drop 1)) with
      | some i => Except.ok (i, n_act)
      | none => Except.error "ValueError: invalid literal for int"
    | _ => Except.error "ValueError: unpacking path"
  | _ => Except.error "ValueError: unpacking request line"

/-- One connection handled by `_callback_server` (lines 178-187) against live
set `s`, given the request line the connection delivers.  An exception while
parsing terminates only that connection's task (asyncio runs each connection
callback as its own task, so the exception never reaches the accept loop):
the live set is unchanged, no handler is scheduled and no response is written
(`false`).  On a parseable line the dispatcher runs and the fixed `200 OK`
response is written (`true`). -/
def handle_connection (s : List Notification) (line : String) :
    List Notification × Option Nat × Bool :=
  match parse_request line with
  | Except.error _ => (s, none, false)
  | Except.ok (nid, n_act) =>
    let r := _on_action_callback s nid n_act
    (r.1, r.2, true)

/-- The serving listener processing a sequence of connections in order: each
connection is handled by `handle_connection` and, whatever its outcome, the
listener keeps serving the remaining connections.  Returns the final live set
and, per connection, the scheduled handler (if any) and whether the success
response was written. -/
def serve_connections (s : List Notification) :
    List String → List Notification × List (Option Nat × Bool)
  | [] => (s, [])
  | line :: rest =>
    let r := handle_connection s line
    let rec_result := serve_connections r.1 rest
    (rec_result.1, (r.2.1, r.2.2) :: rec_result.2)

/-- `NotificationManager.new_nid` (lines 212-214): increment the counter
(initially 0, line 157) and return it.  Python integers are unbounded, so the
counter is a `Nat`.  Returns the new counter state and the returned id. -/
def new_nid (nid_state : Nat) : Nat × Nat :=
  (nid_state + 1, nid_state + 1)

/-- The ids returned by `count` successive calls of `new_nid` starting from
counter state `st`. -/
def run_new_nids : Nat → Nat → List Nat
  | _, 0 => []
  | st, count + 1 =>
    let r := new_nid st
    r.2 :: run_new_nids r.1 count

/-- The listener-lifecycle state of a `NotificationManager`:
`server` is `none` until `start_callback_server` first assigns it (line 155
initialises it to `None`); `some b` models an `asyncio.Server` object whose
`is_serving()` returns `b`.  `path_in_use` models whether the unix socket
file at `socketpath` exists (created by a successful bind). -/
structure ManagerL where
  server : Option Bool
  path_in_use : Bool
deriving DecidableEq

/-- A freshly constructed manager (lines 152-158): no server object, no
socket file. -/
def ManagerL.init : ManagerL :=
  { server := none, path_in_use := false }

/-- `NotificationManager.start_callback_server` (lines 174-176):
`asyncio.start_unix_server` binds `socketpath`.  Binding a unix-socket path
whose file already exists raises `OSError` (address already in use), in which
case the assignment to `self.server` never happens; on success the new server
is assigned and serving. -/
def start_callback_server (m : ManagerL) : Except String ManagerL :=
  if m.path_in_use then Except.error "OSError: address already in use"
  else Except.ok { server := some true, path_in_use := true }

/-- `NotificationManager.is_serving` (lines 206-207):
`self.server.is_serving() if self.server else False`. -/
def is_serving (m : ManagerL) : Bool :=
  match m.server with
  | none => false
  | some b => b

/-- `NotificationManager.stop_callback_server` (lines 209-210):
`self.server.close()`.  When `self.server` is still `None` this raises
`AttributeError`; otherwise `asyncio.Server.close` stops serving (it is
idempotent on an already-closed server and does not unlink the socket
file). -/
def stop_callback_server (m : ManagerL) : Except String ManagerL :=
  match m.server with
  | none => Except.error "AttributeError: NoneType object has no close"
  | some _ => Except.ok { server := some false, path_in_use := m.path_in_use }

/-- One lifecycle operation applied to a manager: `true` is
`start_callback_server`, `false` is `stop_callback_server`.  A raised
exception leaves the manager state unchanged (in both methods the raise
happens before any assignment to `self.server`). -/
def applyOp (m : ManagerL) (op : Bool) : ManagerL :=
  match (if op then start_callback_server m else stop_callback_server m) with
  | Except.ok m2 => m2
  | Except.error _ => m

/-- The manager state reached from a fresh manager by a sequence of lifecycle
operations. -/
def run_ops (ops : List Bool) : ManagerL :=
  ops.foldl applyOp ManagerL.init

/-- The live set holds no two notifications with the same id. -/
def ids_nodup (s : List Notification) : Prop :=
  s.Pairwise (fun a b => a.n_id ≠ b.n_id)

theorem run_new_nids_chain (st k : Nat) :
    (run_new_nids st k).Pairwise (· < ·) ∧ ∀ x ∈ run_new_nids st k, st < x := by
  induction k generalizing st with
  | zero => simp [run_new_nids]
  | succ k ih =>
    have h := ih (st + 1)
    simp only [run_new_nids, new_nid]
    constructor
    · exact List.pairwise_cons.mpr ⟨fun x hx => h.2 x hx, h.1⟩
    · intro x hx
      rcases List.mem_cons.mp hx with rfl | hx
      · omega
      · have := h.2 x hx
        omega

/-- C7: for every sequence of n calls to `new_nid` on one manager (counter
starting at 0, line 157), the returned ids are pairwise distinct, strictly
increasing and all greater than zero.  `new_nid` is a total function on an
unbounded counter, so the operation never fails. -/
theorem new_nid_results (k : Nat) :
    (run_new_nids 0 k).Pairwise (· < ·) ∧ (run_new_nids 0 k).Nodup
    ∧ ∀ x ∈ run_new_nids 0 k, 0 < x := by
  obtain ⟨hp, hb⟩ := run_new_nids_chain 0 k
  exact ⟨hp, hp.imp Nat.ne_of_lt, hb⟩

/-- C10: `remove_all_notifications` issues one removal command per live
notification but leaves the live set unchanged (every previously live record
is still live), while `remove_notification` discards its argument's id from
the live set (and keeps the records with other ids). -/
theorem remove_all_frame (s : List Notification) (n : Notification) :
    (∀ m, m ∈ (remove_all_notifications s).1 ↔ m ∈ s)
    ∧ (remove_all_notifications s).2.length = s.length
    ∧ (∀ m ∈ s, remove_cmd_args m.n_id ∈ (remove_all_notifications s).2)
    ∧ (∀ m ∈ (remove_notification s n).1, m.n_id ≠ n.n_id)
    ∧ (∀ m ∈ s, m.n_id ≠ n.n_id → m ∈ (remove_notification s n).1) := by
  refine ⟨fun m => Iff.rfl, by simp [remove_all_notifications], ?_, ?_, ?_⟩
  · intro m hm
    exact List.mem_map.mpr ⟨m, hm, rfl⟩
  · intro m hm
    have := (List.mem_filter.mp hm).2
    simpa [notifEq] using this
  · intro m hm hne
    refine List.mem_filter.mpr ⟨hm, ?_⟩
    simpa [notifEq] using hne

/-- C4 (code evaluation): `set_button1` with a nonempty label and an absent
handler leaves the label set and the handler absent, and `set_button2` with
an empty label and a present handler leaves the handler present — the
clearing guard of lines 121-140 falls through instead of returning, so the
label/handler coupling claimed by the spec does not hold. -/
theorem set_button_missing_clear_eval :
    (((Notification.simple 1 "c").set_button1 "OK" none).button1 = "OK"
      ∧ ((Notification.simple 1 "c").set_button1 "OK" none).action_button1 = none)
    ∧ ((Notification.simple 1 "c").set_button2 "" (some 3)).button2 = ""
    ∧ ((Notification.simple 1 "c").set_button2 "" (some 3)).action_button2 = some 3
    ∧ ((Notification.simple 1 "c").set_button3 "X" none).button3 = "X"
    ∧ ((Notification.simple 1 "c").set_button3 "X" none).action_button3 = none := by
  decide

/-- C9 (code evaluation): for a notification with a title, the display
command carries the `--title` flag/value pair twice (lines 223 and 246 both
emit it), refuting "at most one flag/value pair per display attribute". -/
theorem title_flag_duplicated_eval :
    ((_notification_args "S" (Notification.make 1 "c" "T" "" "" "" false true false "" "" "")).count
      "--title") = 2 := by
  decide

theorem dispatch_target_eq_bound (n : Notification) (action : String) :
    _dispatch_target n action = bound_handler n action := by
  unfold _dispatch_target bound_handler
  simp only [ACTION_CLICK, ACTION_DELETE, ACTION_MEDIA_PLAY, ACTION_MEDIA_PAUSE,
    ACTION_MEDIA_NEXT, ACTION_MEDIA_PREVIOUS, ACTION_BUTTON1, ACTION_BUTTON2,
    ACTION_BUTTON3]
  by_cases h1 : action = "click"
  · subst h1; cases hc : n.action_click <;> simp [hc]
  by_cases h2 : action = "delete"
  · subst h2; cases hc : n.action_delete <;> simp [hc]
  by_cases h3 : action = "media_play"
  · subst h3; cases hc : n.action_media_play <;> simp [hc]
  by_cases h4 : action = "media_pause"
  · subst h4; cases hc : n.action_media_pause <;> simp [hc]
  by_cases h5 : action = "media_next"
  · subst h5; cases hc : n.action_media_next <;> simp [hc]
  by_cases h6 : action = "media_previous"
  · subst h6; cases hc : n.action_media_previous <;> simp [hc]
  by_cases h7 : action = "button1"
  · subst h7; cases hc : n.action_button1 <;> simp [hc]
  by_cases h8 : action = "button2"
  · subst h8; cases hc : n.action_button2 <;> simp [hc]
  by_cases h9 : action = "button3"
  · subst h9; cases hc : n.action_button3 <;> simp [hc]
  simp [h1, h2, h3, h4, h5, h6, h7, h8, h9]

/-- C1: dispatching `click` or `delete` for an id present in the live set
removes that id from the live set, whether or not a handler was bound for the
action; dispatching any other action token leaves the live set unchanged. -/
theorem terminal_action_removes_id (s : List Notification) (nid : Int) (action : String) :
    ((action = ACTION_CLICK ∨ action = ACTION_DELETE) →
      (∃ n ∈ s, n.n_id = nid) →
      ∀ m ∈ (_on_action_callback s nid action).1, m.n_id ≠ nid)
    ∧ (action ≠ ACTION_CLICK → action ≠ ACTION_DELETE →
      (_on_action_callback s nid action).1 = s) := by
  constructor
  · intro hact hex m hm
    obtain ⟨n0, hn0, hid⟩ := hex
    cases hf : s.find? (fun n => n.n_id == nid) with
    | none =>
      exfalso
      have := List.find?_eq_none.mp hf n0 hn0
      simp [hid] at this
    | some nf =>
      have hnf : nf.n_id = nid := by simpa using List.find?_some hf
      have hm2 : m ∈ setDiscard s nf := by
        rcases hact with rfl | rfl <;> simpa [_on_action_callback, hf] using hm
      have := (List.mem_filter.mp hm2).2
      simp only [notifEq, Bool.not_eq_true', beq_eq_false_iff_ne] at this
      rw [hnf] at this
      exact this
  · intro h1 h2
    cases hf : s.find? (fun n => n.n_id == nid) with
    | none => simp [_on_action_callback, hf]
    | some nf => simp [_on_action_callback, hf, h1, h2]

theorem terminal_action_removes_id_witness :
    (∃ n ∈ [Notification.simple 1 "hi"], n.n_id = 1)
    ∧ ∀ m ∈ (_on_action_callback [Notification.simple 1 "hi"] 1 "click").1, m.n_id ≠ 1 :=
  ⟨by decide,
    (terminal_action_removes_id [Notification.simple 1 "hi"] 1 "click").1
      (Or.inl rfl) (by decide)⟩

/-- C3: dispatching an id with no live notification invokes no handler,
raises nothing (the embedded `_on_action_callback` is total) and leaves the
live set unchanged; dispatching an action for which the found live record has
no bound handler schedules no handler. -/
theorem unknown_routing_noop (s : List Notification) (nid : Int) (action : String) :
    ((∀ n ∈ s, n.n_id ≠ nid) → _on_action_callback s nid action = (s, none))
    ∧ (∀ n, s.find? (fun m => m.n_id == nid) = some n →
        bound_handler n action = none →
        (_on_action_callback s nid action).2 = none) := by
  constructor
  · intro h
    have hf : s.find? (fun n => n.n_id == nid) = none := by
      rw [List.find?_eq_none]
      intro x hx
      simpa using h x hx
    simp [_on_action_callback, hf]
  · intro n hf hb
    simp [_on_action_callback, hf, dispatch_target_eq_bound, hb]

theorem unknown_routing_noop_witness :
    (∀ n ∈ ([] : List Notification), n.n_id ≠ 3)
    ∧ _on_action_callback [] 3 "click" = ([], none) :=
  ⟨by simp, (unknown_routing_noop [] 3 "click").1 (by simp)⟩

theorem sendSet_eq_cons (sp : String) (s : List Notification) (n : Notification) :
    (send_notification sp s n).1 = n :: setDiscard s n := by
  have h : (setDiscard s n).any (fun m => notifEq m n) = false := by
    rw [List.any_eq_false]
    intro m hm
    have := (List.mem_filter.mp hm).2
    simp only [Bool.not_eq_true'] at this
    simp [this]
  simp [send_notification, setAdd, h]

theorem send_preserves_ids_nodup (sp : String) (s : List Notification)
    (n : Notification) (h : ids_nodup s) : ids_nodup (send_notification sp s n).1 := by
  rw [sendSet_eq_cons]
  refine List.pairwise_cons.mpr ⟨?_, ?_⟩
  · intro m hm
    have := (List.mem_filter.mp hm).2
    simp only [notifEq, Bool.not_eq_true', beq_eq_false_iff_ne] at this
    exact fun he => this he.symm
  · exact List.Pairwise.sublist (List.filter_sublist s) h

/-- C2: across every sequence of sends the live set never holds two
notifications with the same id; a send leaves exactly one entry with the sent
id (the sent record itself, replacing any prior entry); a dispatch for that
id after the send resolves the handler bound on the sent record; and record
equality is defined solely by the id. -/
theorem send_replace_semantics (sp : String) (s : List Notification)
    (n : Notification) (action : String) (ops : List Notification) :
    ids_nodup (ops.foldl (fun t m => (send_notification sp t m).1) [])
    ∧ (send_notification sp s n).1.filter (fun m => m.n_id == n.n_id) = [n]
    ∧ (_on_action_callback (send_notification sp s n).1 n.n_id action).2 =
        bound_handler n action
    ∧ (∀ a b : Notification, notifEq a b = (a.n_id == b.n_id)) := by
  refine ⟨?_, ?_, ?_, fun a b => rfl⟩
  · have hstep : ∀ (t : List Notification) (rest : List Notification), ids_nodup t →
        ids_nodup (rest.foldl (fun t m => (send_notification sp t m).1) t) := by
      intro t rest
      induction rest generalizing t with
      | nil => intro h; simpa using h
      | cons m rest ih =>
        intro h
        simp only [List.foldl_cons]
        exact ih _ (send_preserves_ids_nodup sp t m h)
    exact hstep [] ops (by simp [ids_nodup])
  · rw [sendSet_eq_cons]
    rw [List.filter_cons_of_pos (by simp)]
    have : (setDiscard s n).filter (fun m => m.n_id == n.n_id) = [] := by
      simp only [setDiscard, List.filter_filter]
      apply List.filter_eq_nil_iff.mpr
      intro m _
      simp [notifEq]
    rw [this]
  · rw [sendSet_eq_cons]
    have hf : (n :: setDiscard s n).find? (fun m => m.n_id == n.n_id) = some n :=
      List.find?_cons_of_pos _ (by simp)
    simp [_on_action_callback, hf, dispatch_target_eq_bound]

theorem unpack_fails_parse_error (line : String)
    (h : request_line_unpack_fails line = true) :
    except_failed (parse_request line) = true := by
  unfold request_line_unpack_fails at h
  cases hsp : pySplit ' ' line with
  | nil => simp [parse_request, except_failed, hsp]
  | cons a t =>
    cases t with
    | nil => simp [parse_request, except_failed, hsp]
    | cons b t2 =>
      cases t2 with
      | nil => simp [parse_request, except_failed, hsp]
      | cons c t3 =>
        cases t3 with
        | cons d t4 => simp [parse_request, except_failed, hsp]
        | nil =>
          simp only [hsp] at h
          cases hcp : pySplit ':' b with
          | nil => simp [parse_request, except_failed, hsp, hcp]
          | cons x xs =>
            cases xs with
            | nil => simp [parse_request, except_failed, hsp, hcp]
            | cons y ys =>
              cases ys with
              | nil => simp [hcp] at h
              | cons z zs => simp [parse_request, except_failed, hsp, hcp]

theorem parse_error_dropped (s : List Notification) (line : String)
    (h : except_failed (parse_request line) = true) :
    handle_connection s line = (s, none, false) := by
  cases hpr : parse_request line with
  | error e => simp [handle_connection, hpr]
  | ok v => rw [hpr] at h; simp [except_failed] at h

theorem unrecognized_action_noop (s : List Notification) (nid : Int)
    (act : String) (h : recognized_action act = false) :
    _on_action_callback s nid act = (s, none) := by
  simp only [recognized_action, Bool.or_eq_false_iff, beq_eq_false_iff_ne,
    ACTION_CLICK, ACTION_DELETE, ACTION_MEDIA_PLAY, ACTION_MEDIA_PAUSE,
    ACTION_MEDIA_NEXT, ACTION_MEDIA_PREVIOUS, ACTION_BUTTON1, ACTION_BUTTON2,
    ACTION_BUTTON3] at h
  obtain ⟨⟨⟨⟨⟨⟨⟨⟨h1, h2⟩, h3⟩, h4⟩, h5⟩, h6⟩, h7⟩, h8⟩, h9⟩ := h
  cases hf : s.find? (fun n => n.n_id == nid) with
  | none => simp [_on_action_callback, hf]
  | some nf =>
    have hd : _dispatch_target nf act = none := by
      rw [dispatch_target_eq_bound]
      unfold bound_handler
      simp only [ACTION_CLICK, ACTION_DELETE, ACTION_MEDIA_PLAY,
        ACTION_MEDIA_PAUSE, ACTION_MEDIA_NEXT, ACTION_MEDIA_PREVIOUS,
        ACTION_BUTTON1, ACTION_BUTTON2, ACTION_BUTTON3]
      simp [h1, h2, h3, h4, h5, h6, h7, h8, h9]
    simp [_on_action_callback, hf, hd, ACTION_CLICK, ACTION_DELETE, h1, h2]

/-- C8: a connection delivering a malformed request line is dropped silently,
the raised `ValueError` (if any) being confined to that connection's task, so
the listener goes on serving the remaining connections.  Three cases, one
per malformed category of the claim: (i) a line on which the tuple unpacking
itself fails (wrong number of space- or colon-separated parts) is dropped
with the live set untouched, no handler scheduled and no response written;
(ii) an ASCII line on which request parsing raises — in particular an id
`int()` rejects, the embedded `int()` being exact on ASCII input — is
dropped the same way; (iii) a line that parses but carries an action token
outside the nine recognized ones schedules no handler and leaves the live
set untouched (the fixed success response is still written, which the claim
permits: the external caller ignores the body). -/
theorem malformed_request_dropped (s : List Notification) (line : String)
    (rest : List String) :
    (request_line_unpack_fails line = true →
      handle_connection s line = (s, none, false)
      ∧ serve_connections s (line :: rest) =
          ((serve_connections s rest).1, (none, false) :: (serve_connections s rest).2))
    ∧ (line.toList.all is_ascii_char = true →
        except_failed (parse_request line) = true →
      handle_connection s line = (s, none, false)
      ∧ serve_connections s (line :: rest) =
          ((serve_connections s rest).1, (none, false) :: (serve_connections s rest).2))
    ∧ (∀ nid act, parse_request line = Except.ok (nid, act) →
        recognized_action act = false →
      handle_connection s line = (s, none, true)
      ∧ serve_connections s (line :: rest) =
          ((serve_connections s rest).1, (none, true) :: (serve_connections s rest).2)) := by
  refine ⟨?_, ?_, ?_⟩
  · intro h
    have h1 := parse_error_dropped s line (unpack_fails_parse_error line h)
    exact ⟨h1, by simp [serve_connections, h1]⟩
  · intro _ h
    have h1 := parse_error_dropped s line h
    exact ⟨h1, by simp [serve_connections, h1]⟩
  · intro nid act hpr hact
    have h1 : handle_connection s line = (s, none, true) := by
      simp [handle_connection, hpr, unrecognized_action_noop s nid act hact]
    exact ⟨h1, by simp [serve_connections, h1]⟩

theorem malformed_request_dropped_witness :
    (request_line_unpack_fails "badline" = true
      ∧ handle_connection [] "badline" = ([], none, false))
    ∧ ((String.toList "GET /09x:click HTTP/1.1").all is_ascii_char = true
      ∧ except_failed (parse_request "GET /09x:click HTTP/1.1") = true
      ∧ handle_connection [] "GET /09x:click HTTP/1.1" = ([], none, false))
    ∧ (parse_request "GET /1:frobnicate HTTP/1.1" = Except.ok (1, "frobnicate")
      ∧ recognized_action "frobnicate" = false
      ∧ handle_connection [Notification.simple 1 "hi"] "GET /1:frobnicate HTTP/1.1"
          = ([Notification.simple 1 "hi"], none, true)) :=
  ⟨⟨by decide, ((malformed_request_dropped [] "badline" []).1 (by decide)).1⟩,
   ⟨by decide, by decide,
    ((malformed_request_dropped [] "GET /09x:click HTTP/1.1" []).2.1
      (by decide) (by decide)).1⟩,
   ⟨by rfl, by decide,
    ((malformed_request_dropped [Notification.simple 1 "hi"]
        "GET /1:frobnicate HTTP/1.1" []).2.2 1 "frobnicate" (by rfl) (by decide)).1⟩⟩

theorem run_ops_inv (ops : List Bool) :
    (run_ops ops).server.isSome = true → (run_ops ops).path_in_use = true := by
  have hstep : ∀ (m : ManagerL) (rest : List Bool),
      (m.server.isSome = true → m.path_in_use = true) →
      ((rest.foldl applyOp m).server.isSome = true →
        (rest.foldl applyOp m).path_in_use = true) := by
    intro m rest
    induction rest generalizing m with
    | nil => intro h; simpa using h
    | cons op rest ih =>
      intro h
      simp only [List.foldl_cons]
      apply ih
      cases op with
      | false =>
        cases hs : m.server with
        | none => simp [applyOp, stop_callback_server, hs]
        | some b =>
          intro _
          simp [applyOp, stop_callback_server, hs]
          exact h (by simp [hs])
      | true =>
        by_cases hp : m.path_in_use
        · simp [applyOp, start_callback_server, hp]
        · simp [applyOp, start_callback_server, hp]
  exact hstep ManagerL.init ops (by simp [ManagerL.init])

/-- C6 (amended): in every manager state reachable by a sequence of listener
start/stop operations, calling stop before the listener was ever started
raises (the `server` attribute is still `None`); once a server object exists,
stop does not raise and leaves the listener not serving, even when it was
already stopped; and calling start while already serving is not a no-op: the
bind of the already-existing socket path raises, leaving the state (still
serving) unchanged. -/
theorem listener_lifecycle_behavior (ops : List Bool) :
    ((run_ops ops).server = none →
      is_serving (run_ops ops) = false
      ∧ except_failed (stop_callback_server (run_ops ops)) = true)
    ∧ (∀ b, (run_ops ops).server = some b →
      ∃ m2, stop_callback_server (run_ops ops) = Except.ok m2 ∧ is_serving m2 = false)
    ∧ (is_serving (run_ops ops) = true →
      except_failed (start_callback_server (run_ops ops)) = true
      ∧ applyOp (run_ops ops) true = run_ops ops) := by
  refine ⟨?_, ?_, ?_⟩
  · intro h
    exact ⟨by simp [is_serving, h], by simp [stop_callback_server, h, except_failed]⟩
  · intro b h
    refine ⟨{ server := some false, path_in_use := (run_ops ops).path_in_use }, ?_, ?_⟩
    · simp [stop_callback_server, h]
    · simp [is_serving]
  · intro h
    have hsome : (run_ops ops).server.isSome = true := by
      cases hs : (run_ops ops).server with
      | none => simp [is_serving, hs] at h
      | some b => simp
    have hp : (run_ops ops).path_in_use = true := run_ops_inv ops hsome
    exact ⟨by simp [start_callback_server, hp, except_failed],
      by simp [applyOp, start_callback_server, hp]⟩

theorem listener_lifecycle_behavior_witness :
    is_serving (run_ops [true]) = true
    ∧ except_failed (start_callback_server (run_ops [true])) = true
    ∧ applyOp (run_ops [true]) true = run_ops [true] :=
  ⟨by decide, ((listener_lifecycle_behavior [true]).2.2 (by decide)).1,
    ((listener_lifecycle_behavior [true]).2.2 (by decide)).2⟩

/-- C6 (counterexample to the claim as stated): a freshly constructed manager
is not serving, yet calling `stop_callback_server` on it raises
(`self.server` is `None` and `None.close()` is an `AttributeError`), so stop
on a non-serving listener does not always succeed. -/
theorem stop_never_started_raises :
    is_serving ManagerL.init = false
    ∧ except_failed (stop_callback_server ManagerL.init) = true := by
  decide

/-- C5 (counterexample to the claim as stated): a notification whose
`media_play` handler is bound but whose style tag is not `media` gets no
`media_play` callback in its display command, so the command does not contain
a callback address for every bound action. -/
theorem media_action_unwired_cx :
    ({ Notification.simple 5 "c" with action_media_play := some 7 }
        : Notification).action_media_play.isSome = true
    ∧ ¬ ("--media-play" ∈
        _notification_args "S" { Notification.simple 5 "c" with action_media_play := some 7 }) := by
  decide

/-- C5 (amended): the display command built by send contains a freshly
encoded callback address for every bound button action and, when the style
tag is `media`, for every bound media action (for any other style tag the
media callbacks are omitted even when bound); the click callback is included
exactly when a click handler is bound or the notification is not ongoing,
and likewise for delete. -/
theorem notification_cmd_callback_wiring (sp : String) (n : Notification) :
    (click_action_args sp n ≠ [] ↔ (n.action_click.isSome = true ∨ n.ongoing = false))
    ∧ (delete_action_args sp n ≠ [] ↔ (n.action_delete.isSome = true ∨ n.ongoing = false))
    ∧ ((n.action_click.isSome = true ∨ n.ongoing = false) →
        "--action" ∈ _notification_args sp n)
    ∧ ((n.action_delete.isSome = true ∨ n.ongoing = false) →
        "--on-delete" ∈ _notification_args sp n)
    ∧ (n.action_button1.isSome = true → "--button1-action" ∈ _notification_args sp n)
    ∧ (n.action_button2.isSome = true → "--button2-action" ∈ _notification_args sp n)
    ∧ (n.action_button3.isSome = true → "--button3-action" ∈ _notification_args sp n)
    ∧ (n.n_type ≠ "media" → media_action_args sp n = [])
    ∧ (n.n_type = "media" →
        (n.action_media_play.isSome = true → "--media-play" ∈ _notification_args sp n)
        ∧ (n.action_media_pause.isSome = true → "--media-pause" ∈ _notification_args sp n)
        ∧ (n.action_media_next.isSome = true → "--media-next" ∈ _notification_args sp n)
        ∧ (n.action_media_previous.isSome = true →
            "--media-previous" ∈ _notification_args sp n)) := by
  refine ⟨?_, ?_, ?_, ?_, ?_, ?_, ?_, ?_, ?_⟩
  · cases hic : n.action_click.isSome <;> cases hog : n.ongoing <;>
      simp [click_action_args, hic, hog]
  · cases hic : n.action_delete.isSome <;> cases hog : n.ongoing <;>
      simp [delete_action_args, hic, hog]
  · rintro (h | h) <;> simp [_notification_args, click_action_args, h]
  · rintro (h | h) <;> simp [_notification_args, delete_action_args, h]
  · intro h
    simp [_notification_args, button1_action_args, h]
  · intro h
    simp [_notification_args, button2_action_args, h]
  · intro h
    simp [_notification_args, button3_action_args, h]
  · intro h
    simp [media_action_args, h]
  · intro ht
    refine ⟨?_, ?_, ?_, ?_⟩ <;> intro h <;>
      simp [_notification_args, media_action_args, ht, h]

theorem notification_cmd_callback_wiring_witness :
    "--action" ∈ _notification_args "S" (Notification.simple 9 "c") :=
  (notification_cmd_callback_wiring "S" (Notification.simple 9 "c")).2.2.1
    (Or.inr (by decide))

end AsyncTermux
